import Mathlib

/-!
Shallow embedding of the Student Attendance System backend
(`src/backend/server.py`) and proofs about its permission,
consistency and reporting logic.

Modelling conventions:
* MongoDB collections become Lean lists; `find_one` is `List.find?`,
  `insert_one` appends, `update_one` replaces the first match,
  `delete_one` removes the first match, `delete_many` filters.
* `datetime.utcnow()` timestamps and freshly generated uuids are passed
  in as explicit parameters (`now`, `fresh`).
* Python `date` values are proleptic-Gregorian ordinals (`Nat`), exactly
  as `date.toordinal()`; day 1 is 0001-01-01.  Adding `timedelta(days=1)`
  is `+ 1` and `str(d)` / `strftime("%Y-%m-%d")` is `isoOfOrdinal`.
* Each endpoint returns `Except ApiError result × DB`: the `HTTPException`
  raises become `Except.error` and the database is returned unchanged in
  that case.  The unguarded `class_doc["teacher_id"]` access on a `None`
  document in `update_student` / `delete_student` is modelled by the
  distinguished error `ApiError.noneTypeError`.
-/

namespace SAS

/-- Error outcomes of an endpoint, mirroring the `HTTPException`s raised in
`server.py` plus the uncaught `TypeError` from subscripting `None`. -/
inductive ApiError where
  | badRequest (detail : String)
  | unauthorized (detail : String)
  | forbidden (detail : String)
  | notFound (detail : String)
  | noneTypeError
  deriving Repr, DecidableEq

/-- `class User(BaseModel)` from `server.py`. -/
structure User where
  id : String
  username : String
  email : String
  password_hash : String
  role : String
  created_at : Nat
  deriving Repr, DecidableEq

/-- `class UserCreate(BaseModel)` from `server.py`. -/
structure UserCreate where
  username : String
  email : String
  password : String
  role : String
  deriving Repr, DecidableEq

/-- `class UserResponse(BaseModel)` from `server.py`; the shape of
`current_user` inside every endpoint. -/
structure UserResponse where
  id : String
  username : String
  email : String
  role : String
  created_at : Nat
  deriving Repr, DecidableEq

/-- `class Class(BaseModel)` from `server.py`. -/
structure Klass where
  id : String
  name : String
  subject : String
  teacher_id : String
  created_at : Nat
  deriving Repr, DecidableEq

/-- `class ClassCreate(BaseModel)` from `server.py`. -/
structure ClassCreate where
  name : String
  subject : String
  teacher_id : String
  deriving Repr, DecidableEq

/-- `class Student(BaseModel)` from `server.py`. -/
structure Student where
  id : String
  name : String
  email : String
  class_id : String
  roll_number : String
  created_at : Nat
  deriving Repr, DecidableEq

/-- `class StudentCreate(BaseModel)` from `server.py`. -/
structure StudentCreate where
  name : String
  email : String
  class_id : String
  roll_number : String
  deriving Repr, DecidableEq

/-- `class Attendance(BaseModel)` from `server.py`; `date` is the Python
date's proleptic-Gregorian ordinal. -/
structure Attendance where
  id : String
  class_id : String
  student_id : String
  date : Nat
  status : String
  created_at : Nat
  deriving Repr, DecidableEq

/-- One element of `AttendanceBulkCreate.attendance_records`:
`{"student_id": ..., "status": ...}`. -/
structure AttendanceRecordIn where
  student_id : String
  status : String
  deriving Repr, DecidableEq

/-- `class AttendanceBulkCreate(BaseModel)` from `server.py`. -/
structure AttendanceBulkCreate where
  class_id : String
  date : Nat
  attendance_records : List AttendanceRecordIn
  deriving Repr, DecidableEq

/-- The MongoDB database `db` with its four collections. -/
structure DB where
  users : List User
  classes : List Klass
  students : List Student
  attendance : List Attendance
  deriving Repr, DecidableEq

/-- `update_one({"id": i}, {"$set": doc})`: replace the first element
satisfying `p` by `repl`. -/
def updateFirst {α : Type} (p : α → Bool) (repl : α) : List α → List α
  | [] => []
  | x :: xs => if p x then repl :: xs else x :: updateFirst p repl xs

/-- `delete_one({"id": i})`: remove the first element satisfying `p`. -/
def deleteFirst {α : Type} (p : α → Bool) : List α → List α
  | [] => []
  | x :: xs => if p x then xs else x :: deleteFirst p xs

/-- `POST /auth/register` (`register_user`, server.py:144-169).
`fresh_id`, `now` stand for the generated uuid and `utcnow()`, and
`hashed` for `hash_password(user_data.password)`. -/
def register_user (db : DB) (user_data : UserCreate) (fresh_id : String)
    (hashed : String) (now : Nat) : Except ApiError User × DB :=
  match db.users.find? (fun u => u.email == user_data.email) with
  | some _ => (Except.error (ApiError.badRequest "Email already registered"), db)
  | none =>
      let user : User :=
        { id := fresh_id, username := user_data.username,
          email := user_data.email, password_hash := hashed,
          role := user_data.role, created_at := now }
      (Except.ok user, { db with users := db.users ++ [user] })

/-- `GET /classes` (`get_classes`, server.py:192-198). -/
def get_classes (db : DB) (current_user : UserResponse) : List Klass :=
  if current_user.role == "teacher" then
    db.classes.filter (fun c => c.teacher_id == current_user.id)
  else
    db.classes

/-- `POST /classes` (`create_class`, server.py:200-207). -/
def create_class (db : DB) (class_data : ClassCreate)
    (current_user : UserResponse) (fresh_id : String) (now : Nat) :
    Except ApiError Klass × DB :=
  if current_user.role != "admin" && class_data.teacher_id != current_user.id then
    (Except.error (ApiError.forbidden "Not authorized to create class for another teacher"), db)
  else
    let new_class : Klass :=
      { id := fresh_id, name := class_data.name, subject := class_data.subject,
        teacher_id := class_data.teacher_id, created_at := now }
    (Except.ok new_class, { db with classes := db.classes ++ [new_class] })

/-- `PUT /classes/{class_id}` (`update_class`, server.py:209-221). -/
def update_class (db : DB) (class_id : String) (class_data : ClassCreate)
    (current_user : UserResponse) (now : Nat) : Except ApiError Klass × DB :=
  match db.classes.find? (fun c => c.id == class_id) with
  | none => (Except.error (ApiError.notFound "Class not found"), db)
  | some existing_class =>
      if current_user.role != "admin" && existing_class.teacher_id != current_user.id then
        (Except.error (ApiError.forbidden "Not authorized to update this class"), db)
      else
        let updated_class : Klass :=
          { id := class_id, name := class_data.name, subject := class_data.subject,
            teacher_id := class_data.teacher_id, created_at := now }
        (Except.ok updated_class,
         { db with classes := updateFirst (fun c => c.id == class_id) updated_class db.classes })

/-- `DELETE /classes/{class_id}` (`delete_class`, server.py:223-233). -/
def delete_class (db : DB) (class_id : String) (current_user : UserResponse) :
    Except ApiError String × DB :=
  match db.classes.find? (fun c => c.id == class_id) with
  | none => (Except.error (ApiError.notFound "Class not found"), db)
  | some existing_class =>
      if current_user.role != "admin" && existing_class.teacher_id != current_user.id then
        (Except.error (ApiError.forbidden "Not authorized to delete this class"), db)
      else
        (Except.ok "Class deleted successfully",
         { db with classes := deleteFirst (fun c => c.id == class_id) db.classes })

/-- `GET /students` (`get_students`, server.py:236-243).  Python's
`if class_id:` treats the empty string like an absent filter. -/
def get_students (db : DB) (class_id : Option String)
    (current_user : UserResponse) : List Student :=
  match class_id with
  | some cid =>
      if cid == "" then db.students
      else db.students.filter (fun s => s.class_id == cid)
  | none => db.students

/-- `POST /students` (`create_student`, server.py:245-257). -/
def create_student (db : DB) (student_data : StudentCreate)
    (current_user : UserResponse) (fresh_id : String) (now : Nat) :
    Except ApiError Student × DB :=
  match db.classes.find? (fun c => c.id == student_data.class_id) with
  | none => (Except.error (ApiError.notFound "Class not found"), db)
  | some class_doc =>
      if current_user.role != "admin" && class_doc.teacher_id != current_user.id then
        (Except.error (ApiError.forbidden "Not authorized to add student to this class"), db)
      else
        let new_student : Student :=
          { id := fresh_id, name := student_data.name, email := student_data.email,
            class_id := student_data.class_id, roll_number := student_data.roll_number,
            created_at := now }
        (Except.ok new_student, { db with students := db.students ++ [new_student] })

/-- `PUT /students/{student_id}` (`update_student`, server.py:259-273).
The permission check reads `class_doc["teacher_id"]` where `class_doc`
is looked up by the payload's NEW `class_id`, without a `None` guard:
for a non-admin actor and a missing class this subscripts `None`
(modelled as `ApiError.noneTypeError`); for an admin the Python `and`
short-circuits and the update proceeds. -/
def update_student (db : DB) (student_id : String) (student_data : StudentCreate)
    (current_user : UserResponse) (now : Nat) : Except ApiError Student × DB :=
  match db.students.find? (fun s => s.id == student_id) with
  | none => (Except.error (ApiError.notFound "Student not found"), db)
  | some _existing_student =>
      let class_doc := db.classes.find? (fun c => c.id == student_data.class_id)
      let proceed : Except ApiError Student × DB :=
        let updated_student : Student :=
          { id := student_id, name := student_data.name, email := student_data.email,
            class_id := student_data.class_id, roll_number := student_data.roll_number,
            created_at := now }
        (Except.ok updated_student,
         { db with students := updateFirst (fun s => s.id == student_id) updated_student db.students })
      if current_user.role != "admin" then
        match class_doc with
        | none => (Except.error ApiError.noneTypeError, db)
        | some cdoc =>
            if cdoc.teacher_id != current_user.id then
              (Except.error (ApiError.forbidden "Not authorized to update this student"), db)
            else proceed
      else proceed

/-- `DELETE /students/{student_id}` (`delete_student`, server.py:275-287).
Same unguarded `class_doc["teacher_id"]` pattern, on the student's
current class. -/
def delete_student (db : DB) (student_id : String)
    (current_user : UserResponse) : Except ApiError String × DB :=
  match db.students.find? (fun s => s.id == student_id) with
  | none => (Except.error (ApiError.notFound "Student not found"), db)
  | some existing_student =>
      let class_doc := db.classes.find? (fun c => c.id == existing_student.class_id)
      let proceed : Except ApiError String × DB :=
        (Except.ok "Student deleted successfully",
         { db with students := deleteFirst (fun s => s.id == student_id) db.students })
      if current_user.role != "admin" then
        match class_doc with
        | none => (Except.error ApiError.noneTypeError, db)
        | some cdoc =>
            if cdoc.teacher_id != current_user.id then
              (Except.error (ApiError.forbidden "Not authorized to delete this student"), db)
            else proceed
      else proceed

/-- `POST /attendance/bulk` (`mark_bulk_attendance`, server.py:290-320).
`fresh` enumerates the uuids generated for the inserted rows. -/
def mark_bulk_attendance (db : DB) (attendance_data : AttendanceBulkCreate)
    (current_user : UserResponse) (fresh : Nat → String) (now : Nat) :
    Except ApiError String × DB :=
  match db.classes.find? (fun c => c.id == attendance_data.class_id) with
  | none => (Except.error (ApiError.notFound "Class not found"), db)
  | some class_doc =>
      if current_user.role != "admin" && class_doc.teacher_id != current_user.id then
        (Except.error (ApiError.forbidden "Not authorized to mark attendance for this class"), db)
      else
        let kept := db.attendance.filter
          (fun a => !(a.class_id == attendance_data.class_id && a.date == attendance_data.date))
        let attendance_records :=
          (List.range attendance_data.attendance_records.length).zip
              attendance_data.attendance_records |>.map
            (fun p =>
              ({ id := fresh p.1, class_id := attendance_data.class_id,
                 student_id := p.2.student_id, date := attendance_data.date,
                 status := p.2.status, created_at := now } : Attendance))
        (Except.ok ("Attendance marked for " ++ toString attendance_records.length ++ " students"),
         { db with attendance := kept ++ attendance_records })

/-- Shape of one element of `get_attendance`'s response. -/
structure AttendanceOut where
  student_id : String
  student_name : String
  roll_number : String
  status : String
  deriving Repr, DecidableEq

/-- Lookup in `attendance_map = {record["student_id"]: record["status"]
for record in attendance_records}`: the dict keeps the LAST record for a
repeated key. -/
def attendanceMapGet (records : List Attendance) (sid : String) : Option String :=
  ((records.filter (fun r => r.student_id == sid)).getLast?).map (fun r => r.status)

/-- `GET /attendance` (`get_attendance`, server.py:322-353). -/
def get_attendance (db : DB) (class_id : String) (d : Nat)
    (current_user : UserResponse) : Except ApiError (List AttendanceOut) :=
  match db.classes.find? (fun c => c.id == class_id) with
  | none => Except.error (ApiError.notFound "Class not found")
  | some class_doc =>
      if current_user.role != "admin" && class_doc.teacher_id != current_user.id then
        Except.error (ApiError.forbidden "Not authorized to view attendance for this class")
      else
        let students := db.students.filter (fun s => s.class_id == class_id)
        let attendance_records := db.attendance.filter
          (fun a => a.class_id == class_id && a.date == d)
        Except.ok (students.map (fun s =>
          { student_id := s.id, student_name := s.name, roll_number := s.roll_number,
            status := (attendanceMapGet attendance_records s.id).getD "not_marked" }))

/-- `"%02d"`-style rendering used by `strftime` for months and days. -/
def pad2 (n : Nat) : String :=
  if n < 10 then "0" ++ toString n else toString n

/-- `"%04d"`-style rendering used by `strftime("%Y")` for the year. -/
def pad4 (n : Nat) : String :=
  if n < 10 then "000" ++ toString n
  else if n < 100 then "00" ++ toString n
  else if n < 1000 then "0" ++ toString n
  else toString n

/-- Convert a proleptic-Gregorian ordinal (day 1 = 0001-01-01, as
Python's `date.toordinal()`) to `(year, month, day)`, via the standard
civil-from-days computation shifted to stay in `Nat`. -/
def civilFromOrdinal (o : Nat) : Nat × Nat × Nat :=
  let z := o + 305
  let era := z / 146097
  let doe := z % 146097
  let yoe := (doe - doe / 1460 + doe / 36524 - doe / 146096) / 365
  let y := yoe + era * 400
  let doy := doe - (365 * yoe + yoe / 4 - yoe / 100)
  let mp := (5 * doy + 2) / 153
  let d := doy - (153 * mp + 2) / 5 + 1
  let m := if mp < 10 then mp + 3 else mp - 9
  (if m ≤ 2 then y + 1 else y, m, d)

/-- `current_date.strftime("%Y-%m-%d")` (also `str(d)` for a Python
date): the ISO-8601 rendering of the day with ordinal `o`. -/
def isoOfOrdinal (o : Nat) : String :=
  let c := civilFromOrdinal o
  pad4 c.1 ++ "-" ++ pad2 c.2.1 ++ "-" ++ pad2 c.2.2

/-- The `while current_date <= end_date` loop of
`download_attendance_csv` (server.py:377-381), collecting one ISO string
per day of the inclusive range. -/
def dateRangeFrom (current : Nat) (endDate : Nat) : List String :=
  if current ≤ endDate then
    isoOfOrdinal current :: dateRangeFrom (current + 1) endDate
  else []
termination_by endDate + 1 - current

/-- Lookup in the csv `attendance_map`, keyed by
`f"{student_id}_{date}"` with dict last-wins semantics. -/
def csvMapGet (records : List Attendance) (key : String) : Option String :=
  ((records.filter (fun r => r.student_id ++ "_" ++ isoOfOrdinal r.date == key)).getLast?).map
    (fun r => r.status)

/-- `GET /attendance/report/csv` (`download_attendance_csv`,
server.py:355-398), modelled as the list of rows written to the csv
writer (header row first). -/
def download_attendance_csv (db : DB) (class_id : String)
    (start_date end_date : Nat) (current_user : UserResponse) :
    Except ApiError (List (List String)) :=
  match db.classes.find? (fun c => c.id == class_id) with
  | none => Except.error (ApiError.notFound "Class not found")
  | some class_doc =>
      if current_user.role != "admin" && class_doc.teacher_id != current_user.id then
        Except.error (ApiError.forbidden "Not authorized to generate report for this class")
      else
        let students := db.students.filter (fun s => s.class_id == class_id)
        let attendance_records := db.attendance.filter
          (fun a => a.class_id == class_id && start_date ≤ a.date && a.date ≤ end_date)
        let date_range := dateRangeFrom start_date end_date
        let header := ["Student Name", "Roll Number"] ++ date_range
        let rows := students.map (fun s =>
          [s.name, s.roll_number] ++ date_range.map (fun date_str =>
            (csvMapGet attendance_records (s.id ++ "_" ++ date_str)).getD "not_marked"))
        Except.ok (header :: rows)

/-- `GET /users` (`get_users`, server.py:409-415). -/
def get_users (db : DB) (current_user : UserResponse) :
    Except ApiError (List UserResponse) :=
  if current_user.role != "admin" then
    Except.error (ApiError.forbidden "Only admins can view users")
  else
    Except.ok (db.users.map (fun u =>
      { id := u.id, username := u.username, email := u.email,
        role := u.role, created_at := u.created_at }))

/-- The spec §4.3 authorization rule, written from its words:
`actor.role == "admin" OR actor.id == ownerTeacherId`. -/
def canMutate (actor : UserResponse) (ownerTeacherId : String) : Bool :=
  actor.role == "admin" || actor.id == ownerTeacherId

/-- Number of attendance rows in the `(class_id, date)` partition. -/
def partitionCount (db : DB) (cid : String) (d : Nat) : Nat :=
  (db.attendance.filter (fun a => a.class_id == cid && a.date == d)).length

/-! ### Helper lemmas -/

/-- `==` on strings is symmetric. -/
theorem beq_symm_string (a b : String) : (a == b) = (b == a) := by
  by_cases h : a = b
  · subst h; rfl
  · have h' : ¬ b = a := fun e => h e.symm
    rw [Bool.eq_iff_iff]
    simp [h, h']

/-- The permission guard `current_user.role != "admin" and
owner != current_user.id` used by every protected endpoint is exactly the
negation of the spec's `canMutate`. -/
theorem guard_eq_not_canMutate (u : UserResponse) (o : String) :
    (u.role != "admin" && o != u.id) = !(canMutate u o) := by
  simp only [bne, canMutate, Bool.not_or]
  rw [beq_symm_string o u.id]

/-- The csv date loop enumerates `isoOfOrdinal` over the inclusive range. -/
theorem dateRangeFrom_eq (c e : Nat) :
    dateRangeFrom c e = (List.range (e + 1 - c)).map (fun i => isoOfOrdinal (c + i)) := by
  rw [dateRangeFrom]
  split
  · rename_i hce
    have hstep : e + 1 - c = (e + 1 - (c + 1)) + 1 := by omega
    rw [dateRangeFrom_eq (c + 1) e, hstep, List.range_succ_eq_map]
    simp only [List.map_cons, List.map_map, Nat.add_zero]
    refine congrArg (isoOfOrdinal c :: ·) ?_
    refine List.map_congr_left ?_
    intro i _
    simp only [Function.comp_apply, Nat.succ_eq_add_one]
    congr 1
    omega
  · rename_i hce
    have h0 : e + 1 - c = 0 := by omega
    simp [h0]
termination_by e + 1 - c

/-- Replacing the first match keeps it the first match, provided the
replacement also satisfies the predicate. -/
theorem find?_updateFirst {α : Type} (p : α → Bool) (repl : α) (l : List α)
    (x : α) (hfind : l.find? p = some x) (hrepl : p repl = true) :
    (updateFirst p repl l).find? p = some repl := by
  induction l with
  | nil => simp at hfind
  | cons a as ih =>
      by_cases ha : p a = true
      · simp [updateFirst, ha, List.find?, hrepl]
      · have ha' : p a = false := by simpa using ha
        rw [List.find?_cons_of_neg _ (by simp [ha'])] at hfind
        simp [updateFirst, ha', List.find?, ih hfind]

/-! ### Claims -/

/-- **C1.** For every authenticated actor `u` and every mutation on a
class, a student, or attendance whose owning teacher id is `o`, the
mutation is permitted (returns `ok`) if and only if
`u.role == "admin"` or `u.id == o`, and every other actor fails with
`Forbidden`. The single rule `canMutate` governs class
create/update/delete, student create/update/delete, attendance
bulk-write, attendance read and the csv report. -/
theorem C1_single_policy_rule (db : DB) (u : UserResponse) :
    (∀ cd fid now, (create_class db cd u fid now).1.isOk = canMutate u cd.teacher_id ∧
      (canMutate u cd.teacher_id = false → (create_class db cd u fid now).1 =
        Except.error (ApiError.forbidden "Not authorized to create class for another teacher"))) ∧
    (∀ cid cd now ec, db.classes.find? (fun c => c.id == cid) = some ec →
      (update_class db cid cd u now).1.isOk = canMutate u ec.teacher_id ∧
      (canMutate u ec.teacher_id = false → (update_class db cid cd u now).1 =
        Except.error (ApiError.forbidden "Not authorized to update this class"))) ∧
    (∀ cid ec, db.classes.find? (fun c => c.id == cid) = some ec →
      (delete_class db cid u).1.isOk = canMutate u ec.teacher_id ∧
      (canMutate u ec.teacher_id = false → (delete_class db cid u).1 =
        Except.error (ApiError.forbidden "Not authorized to delete this class"))) ∧
    (∀ sd fid now cdoc, db.classes.find? (fun c => c.id == sd.class_id) = some cdoc →
      (create_student db sd u fid now).1.isOk = canMutate u cdoc.teacher_id ∧
      (canMutate u cdoc.teacher_id = false → (create_student db sd u fid now).1 =
        Except.error (ApiError.forbidden "Not authorized to add student to this class"))) ∧
    (∀ sid sd now s cdoc, db.students.find? (fun t => t.id == sid) = some s →
      db.classes.find? (fun c => c.id == sd.class_id) = some cdoc →
      (update_student db sid sd u now).1.isOk = canMutate u cdoc.teacher_id ∧
      (canMutate u cdoc.teacher_id = false → (update_student db sid sd u now).1 =
        Except.error (ApiError.forbidden "Not authorized to update this student"))) ∧
    (∀ sid s cdoc, db.students.find? (fun t => t.id == sid) = some s →
      db.classes.find? (fun c => c.id == s.class_id) = some cdoc →
      (delete_student db sid u).1.isOk = canMutate u cdoc.teacher_id ∧
      (canMutate u cdoc.teacher_id = false → (delete_student db sid u).1 =
        Except.error (ApiError.forbidden "Not authorized to delete this student"))) ∧
    (∀ ad f now cdoc, db.classes.find? (fun c => c.id == ad.class_id) = some cdoc →
      (mark_bulk_attendance db ad u f now).1.isOk = canMutate u cdoc.teacher_id ∧
      (canMutate u cdoc.teacher_id = false → (mark_bulk_attendance db ad u f now).1 =
        Except.error (ApiError.forbidden "Not authorized to mark attendance for this class"))) ∧
    (∀ cid d cdoc, db.classes.find? (fun c => c.id == cid) = some cdoc →
      (get_attendance db cid d u).isOk = canMutate u cdoc.teacher_id ∧
      (canMutate u cdoc.teacher_id = false → get_attendance db cid d u =
        Except.error (ApiError.forbidden "Not authorized to view attendance for this class"))) ∧
    (∀ cid sdt edt cdoc, db.classes.find? (fun c => c.id == cid) = some cdoc →
      (download_attendance_csv db cid sdt edt u).isOk = canMutate u cdoc.teacher_id ∧
      (canMutate u cdoc.teacher_id = false → download_attendance_csv db cid sdt edt u =
        Except.error (ApiError.forbidden "Not authorized to generate report for this class"))) := by
  refine ⟨?_, ?_, ?_, ?_, ?_, ?_, ?_, ?_, ?_⟩
  · intro cd fid now
    unfold create_class
    rw [guard_eq_not_canMutate]
    cases hcm : canMutate u cd.teacher_id <;> simp [Except.isOk, Except.toBool]
  · intro cid cd now ec hfind
    unfold update_class
    rw [hfind]
    simp only
    rw [guard_eq_not_canMutate]
    cases hcm : canMutate u ec.teacher_id <;> simp [Except.isOk, Except.toBool]
  · intro cid ec hfind
    unfold delete_class
    rw [hfind]
    simp only
    rw [guard_eq_not_canMutate]
    cases hcm : canMutate u ec.teacher_id <;> simp [Except.isOk, Except.toBool]
  · intro sd fid now cdoc hfind
    unfold create_student
    rw [hfind]
    simp only
    rw [guard_eq_not_canMutate]
    cases hcm : canMutate u cdoc.teacher_id <;> simp [Except.isOk, Except.toBool]
  · intro sid sd now s cdoc hs hc
    unfold update_student
    rw [hs, hc]
    simp only
    by_cases hadm : u.role = "admin"
    · simp [hadm, bne, canMutate, Except.isOk, Except.toBool]
    · by_cases hown : cdoc.teacher_id = u.id
      · simp [hadm, hown, bne, canMutate, Except.isOk, Except.toBool]
      · have hown2 : ¬ u.id = cdoc.teacher_id := fun h => hown h.symm
        simp [hadm, hown, hown2, bne, canMutate, Except.isOk, Except.toBool]
  · intro sid s cdoc hs hc
    unfold delete_student
    rw [hs]
    simp only
    rw [hc]
    simp only
    by_cases hadm : u.role = "admin"
    · simp [hadm, bne, canMutate, Except.isOk, Except.toBool]
    · by_cases hown : cdoc.teacher_id = u.id
      · simp [hadm, hown, bne, canMutate, Except.isOk, Except.toBool]
      · have hown2 : ¬ u.id = cdoc.teacher_id := fun h => hown h.symm
        simp [hadm, hown, hown2, bne, canMutate, Except.isOk, Except.toBool]
  · intro ad f now cdoc hfind
    unfold mark_bulk_attendance
    rw [hfind]
    simp only
    rw [guard_eq_not_canMutate]
    cases hcm : canMutate u cdoc.teacher_id <;> simp [Except.isOk, Except.toBool]
  · intro cid d cdoc hfind
    unfold get_attendance
    rw [hfind]
    simp only
    rw [guard_eq_not_canMutate]
    cases hcm : canMutate u cdoc.teacher_id <;> simp [Except.isOk, Except.toBool]
  · intro cid sdt edt cdoc hfind
    unfold download_attendance_csv
    rw [hfind]
    simp only
    rw [guard_eq_not_canMutate]
    cases hcm : canMutate u cdoc.teacher_id <;> simp [Except.isOk, Except.toBool]

/-! Concrete actors and documents used by the witnesses. -/

/-- A concrete admin actor. -/
def uAdmin : UserResponse :=
  { id := "A", username := "alice", email := "a@x", role := "admin", created_at := 0 }

/-- A concrete teacher actor owning `klass1`. -/
def uT1 : UserResponse :=
  { id := "T1", username := "t1", email := "t1@x", role := "teacher", created_at := 0 }

/-- A concrete teacher actor owning nothing. -/
def uT2 : UserResponse :=
  { id := "T2", username := "t2", email := "t2@x", role := "teacher", created_at := 0 }

/-- A concrete class owned by teacher `T1`. -/
def klass1 : Klass :=
  { id := "C1", name := "Math", subject := "Algebra", teacher_id := "T1", created_at := 0 }

/-- A concrete student of `klass1`. -/
def stud1 : Student :=
  { id := "S1", name := "Sam", email := "s@x", class_id := "C1", roll_number := "1", created_at := 0 }

/-- A concrete attendance row for `stud1` on 2024-01-10 (ordinal 738895). -/
def att1 : Attendance :=
  { id := "AT1", class_id := "C1", student_id := "S1", date := 738895,
    status := "present", created_at := 0 }

/-- A concrete store holding `klass1`, `stud1` and `att1`. -/
def db0 : DB := { users := [], classes := [klass1], students := [stud1], attendance := [att1] }

/-- A concrete class-update payload. -/
def cd0 : ClassCreate := { name := "Physics", subject := "Waves", teacher_id := "T2" }

/-- A concrete student payload targeting `klass1`. -/
def sd0 : StudentCreate := { name := "Pat", email := "p@x", class_id := "C1", roll_number := "2" }

/-- A concrete bulk-attendance payload for `klass1`. -/
def ad0 : AttendanceBulkCreate :=
  { class_id := "C1", date := 738895,
    attendance_records := [{ student_id := "S1", status := "absent" }] }

/-- A concrete uuid generator. -/
def fresh0 : Nat → String := fun n => "F" ++ toString n

/-- Witness for C1: concrete instances of every conjunct, with the
`find?` hypotheses discharged by evaluation, covering both a permitted
owner (`uT1`), a denied non-owner (`uT2`) and an admin. -/
theorem C1_single_policy_rule_witness :
    ((create_class db0 cd0 uT2 "F9" 5).1.isOk = canMutate uT2 cd0.teacher_id) ∧
    ((update_class db0 "C1" cd0 uT2 5).1.isOk = canMutate uT2 klass1.teacher_id) ∧
    (canMutate uT2 klass1.teacher_id = false → (update_class db0 "C1" cd0 uT2 5).1 =
      Except.error (ApiError.forbidden "Not authorized to update this class")) ∧
    ((delete_class db0 "C1" uT2).1.isOk = canMutate uT2 klass1.teacher_id) ∧
    ((create_student db0 sd0 uT1 "F8" 5).1.isOk = canMutate uT1 klass1.teacher_id) ∧
    ((update_student db0 "S1" sd0 uT1 5).1.isOk = canMutate uT1 klass1.teacher_id) ∧
    ((delete_student db0 "S1" uAdmin).1.isOk = canMutate uAdmin klass1.teacher_id) ∧
    ((mark_bulk_attendance db0 ad0 uT1 fresh0 5).1.isOk = canMutate uT1 klass1.teacher_id) ∧
    ((get_attendance db0 "C1" 738895 uT2).isOk = canMutate uT2 klass1.teacher_id) ∧
    ((download_attendance_csv db0 "C1" 738895 738896 uT1).isOk = canMutate uT1 klass1.teacher_id) := by
  refine ⟨(C1_single_policy_rule db0 uT2).1 cd0 "F9" 5 |>.1,
    ((C1_single_policy_rule db0 uT2).2.1 "C1" cd0 5 klass1 (by rfl)).1,
    ((C1_single_policy_rule db0 uT2).2.1 "C1" cd0 5 klass1 (by rfl)).2,
    ((C1_single_policy_rule db0 uT2).2.2.1 "C1" klass1 (by rfl)).1,
    ((C1_single_policy_rule db0 uT1).2.2.2.1 sd0 "F8" 5 klass1 (by rfl)).1,
    ((C1_single_policy_rule db0 uT1).2.2.2.2.1 "S1" sd0 5 stud1 klass1 (by rfl) (by rfl)).1,
    ((C1_single_policy_rule db0 uAdmin).2.2.2.2.2.1 "S1" stud1 klass1 (by rfl) (by rfl)).1,
    ((C1_single_policy_rule db0 uT1).2.2.2.2.2.2.1 ad0 fresh0 5 klass1 (by rfl)).1,
    ((C1_single_policy_rule db0 uT2).2.2.2.2.2.2.2.1 "C1" 738895 klass1 (by rfl)).1,
    ((C1_single_policy_rule db0 uT1).2.2.2.2.2.2.2.2 "C1" 738895 738896 klass1 (by rfl)).1⟩

/-- **C2.** `bulkMark` is idempotent under repetition with identical
input: when the class exists and the policy check passes, one call and a
second call with the same `(classId, date, records)` both leave exactly
`len(records)` attendance rows in the `(classId, date)` partition. -/
theorem C2_bulkMark_idempotent (db : DB) (ad : AttendanceBulkCreate)
    (u : UserResponse) (f1 f2 : Nat → String) (n1 n2 : Nat) (cdoc : Klass)
    (hfind : db.classes.find? (fun c => c.id == ad.class_id) = some cdoc)
    (hperm : canMutate u cdoc.teacher_id = true) :
    partitionCount (mark_bulk_attendance db ad u f1 n1).2 ad.class_id ad.date
        = ad.attendance_records.length ∧
    partitionCount (mark_bulk_attendance (mark_bulk_attendance db ad u f1 n1).2 ad u f2 n2).2
        ad.class_id ad.date = ad.attendance_records.length := by
  have key : ∀ (dbx : DB) (f : Nat → String) (n : Nat),
      dbx.classes.find? (fun c => c.id == ad.class_id) = some cdoc →
      partitionCount (mark_bulk_attendance dbx ad u f n).2 ad.class_id ad.date
          = ad.attendance_records.length ∧
      (mark_bulk_attendance dbx ad u f n).2.classes = dbx.classes := by
    intro dbx f n hf
    unfold mark_bulk_attendance
    rw [hf]
    simp only
    rw [guard_eq_not_canMutate, hperm]
    simp only [Bool.not_true, Bool.false_eq_true, if_false]
    constructor
    · unfold partitionCount
      simp only [List.filter_append, List.length_append, List.filter_filter]
      have h1 : List.filter (fun a =>
          (a.class_id == ad.class_id && a.date == ad.date) &&
          !(a.class_id == ad.class_id && a.date == ad.date)) dbx.attendance = [] := by
        refine List.filter_eq_nil_iff.mpr ?_
        intro a _
        simp
      rw [h1]
      have h2 : List.filter (fun a => a.class_id == ad.class_id && a.date == ad.date)
          (((List.range ad.attendance_records.length).zip ad.attendance_records).map
            (fun p => ({ id := f p.1, class_id := ad.class_id, student_id := p.2.student_id,
                         date := ad.date, status := p.2.status, created_at := n } : Attendance)))
          = (((List.range ad.attendance_records.length).zip ad.attendance_records).map
            (fun p => ({ id := f p.1, class_id := ad.class_id, student_id := p.2.student_id,
                         date := ad.date, status := p.2.status, created_at := n } : Attendance))) := by
        refine List.filter_eq_self.mpr ?_
        intro a ha
        simp only [List.mem_map] at ha
        obtain ⟨pr, _, rfl⟩ := ha
        simp
      rw [h2, List.length_map, List.length_zip, List.length_range]
      simp
    · trivial
  obtain ⟨h1, hcl⟩ := key db f1 n1 hfind
  refine ⟨h1, (key _ f2 n2 ?_).1⟩
  rw [hcl]
  exact hfind

/-- Witness for C2: two identical bulk writes of one record on `db0` by
the owning teacher leave exactly one row in the partition. -/
theorem C2_bulkMark_idempotent_witness :
    partitionCount (mark_bulk_attendance db0 ad0 uT1 fresh0 5).2 ad0.class_id ad0.date = 1 ∧
    partitionCount (mark_bulk_attendance (mark_bulk_attendance db0 ad0 uT1 fresh0 5).2
        ad0 uT1 fresh0 6).2 ad0.class_id ad0.date = 1 :=
  C2_bulkMark_idempotent db0 ad0 uT1 fresh0 fresh0 5 6 klass1 (by rfl) (by rfl)

/-- **C3.** When the policy check passes, `getAttendance` returns one
entry per student currently in the class — the length is the class's
student count, independent of how many attendance rows exist — and each
entry carries a status recorded for that `(student, class, date)` when
one exists, or the sentinel `"not_marked"` when none exists. -/
theorem C3_getAttendance_join (db : DB) (cid : String) (d : Nat)
    (u : UserResponse) (cdoc : Klass)
    (hfind : db.classes.find? (fun c => c.id == cid) = some cdoc)
    (hperm : canMutate u cdoc.teacher_id = true) :
    ∃ out, get_attendance db cid d u = Except.ok out ∧
      out.length = (db.students.filter (fun s => s.class_id == cid)).length ∧
      ∀ p ∈ out.zip (db.students.filter (fun s => s.class_id == cid)),
        p.1.student_id = p.2.id ∧ p.1.student_name = p.2.name ∧
        p.1.roll_number = p.2.roll_number ∧
        ((∃ r ∈ db.attendance, r.class_id = cid ∧ r.date = d ∧
            r.student_id = p.2.id ∧ r.status = p.1.status) ∨
         (p.1.status = "not_marked" ∧ ∀ r ∈ db.attendance,
            ¬(r.class_id = cid ∧ r.date = d ∧ r.student_id = p.2.id))) := by
  unfold get_attendance
  rw [hfind]
  simp only
  rw [guard_eq_not_canMutate, hperm]
  simp only [Bool.not_true, Bool.false_eq_true, if_false]
  set students := db.students.filter (fun s => s.class_id == cid) with hstud
  set part := db.attendance.filter (fun a => a.class_id == cid && a.date == d) with hpart
  set f : Student → AttendanceOut := fun s =>
    { student_id := s.id, student_name := s.name, roll_number := s.roll_number,
      status := (attendanceMapGet part s.id).getD "not_marked" } with hf
  refine ⟨students.map f, rfl, List.length_map students f, ?_⟩
  have hzip : (students.map f).zip students = students.map (fun s => (f s, s)) := by
    nth_rewrite 2 [← List.map_id students]
    exact List.zip_map' f id students
  intro p hp
  rw [hzip] at hp
  obtain ⟨s, hsmem, rfl⟩ := List.mem_map.mp hp
  refine ⟨rfl, rfl, rfl, ?_⟩
  rcases hlast : (part.filter (fun r => r.student_id == s.id)).getLast? with _ | r0
  · refine Or.inr ⟨?_, ?_⟩
    · show (attendanceMapGet part s.id).getD "not_marked" = "not_marked"
      unfold attendanceMapGet
      rw [hlast]
      rfl
    · intro r hr hcontra
      obtain ⟨h1, h2, h3⟩ := hcontra
      have hsub : part.filter (fun r => r.student_id == s.id) = [] :=
        List.getLast?_eq_none_iff.mp hlast
      have hrpart : r ∈ part := by
        rw [hpart]
        refine List.mem_filter.mpr ⟨hr, ?_⟩
        simp [h1, h2]
      have : r ∈ part.filter (fun r => r.student_id == s.id) :=
        List.mem_filter.mpr ⟨hrpart, by simp [h3]⟩
      rw [hsub] at this
      exact absurd this (List.not_mem_nil r)
  · refine Or.inl ⟨r0, ?_, ?_, ?_, ?_, ?_⟩
    · have hmem : r0 ∈ part.filter (fun r => r.student_id == s.id) := by
        obtain ⟨ys, hys⟩ := List.getLast?_eq_some_iff.mp hlast
        rw [hys]
        simp
      have h1 := List.mem_filter.mp hmem
      have h2 := List.mem_filter.mp h1.1
      exact h2.1
    · have hmem : r0 ∈ part.filter (fun r => r.student_id == s.id) := by
        obtain ⟨ys, hys⟩ := List.getLast?_eq_some_iff.mp hlast
        rw [hys]
        simp
      have h1 := List.mem_filter.mp hmem
      have h2 := List.mem_filter.mp h1.1
      have := h2.2
      simp only [Bool.and_eq_true, beq_iff_eq] at this
      exact this.1
    · have hmem : r0 ∈ part.filter (fun r => r.student_id == s.id) := by
        obtain ⟨ys, hys⟩ := List.getLast?_eq_some_iff.mp hlast
        rw [hys]
        simp
      have h1 := List.mem_filter.mp hmem
      have h2 := List.mem_filter.mp h1.1
      have := h2.2
      simp only [Bool.and_eq_true, beq_iff_eq] at this
      exact this.2
    · have hmem : r0 ∈ part.filter (fun r => r.student_id == s.id) := by
        obtain ⟨ys, hys⟩ := List.getLast?_eq_some_iff.mp hlast
        rw [hys]
        simp
      have h1 := List.mem_filter.mp hmem
      have := h1.2
      simp only [beq_iff_eq] at this
      exact this
    · show r0.status = (attendanceMapGet part s.id).getD "not_marked"
      unfold attendanceMapGet
      rw [hlast]
      rfl

/-- Witness for C3: the attendance view of `db0` for class `C1` on
2024-01-10 seen by the owning teacher. -/
theorem C3_getAttendance_join_witness :
    ∃ out, get_attendance db0 "C1" 738895 uT1 = Except.ok out ∧
      out.length = (db0.students.filter (fun s => s.class_id == "C1")).length ∧
      ∀ p ∈ out.zip (db0.students.filter (fun s => s.class_id == "C1")),
        p.1.student_id = p.2.id ∧ p.1.student_name = p.2.name ∧
        p.1.roll_number = p.2.roll_number ∧
        ((∃ r ∈ db0.attendance, r.class_id = "C1" ∧ r.date = 738895 ∧
            r.student_id = p.2.id ∧ r.status = p.1.status) ∨
         (p.1.status = "not_marked" ∧ ∀ r ∈ db0.attendance,
            ¬(r.class_id = "C1" ∧ r.date = 738895 ∧ r.student_id = p.2.id))) :=
  C3_getAttendance_join db0 "C1" 738895 uT1 klass1 (by rfl) (by rfl)

/-- **C4.** For every mutation on a class, a student, or attendance the
existence check precedes the permission check: a missing target yields
`NotFound` for every actor (role never inspected), and an existing
target mutated by a non-admin non-owner yields `Forbidden` — so a
non-admin probing a random id receives `NotFound`, never `Forbidden`,
uniformly across the mutation endpoints. -/
theorem C4_existence_before_permission (db : DB) (u : UserResponse) :
    (∀ cid cd now, db.classes.find? (fun c => c.id == cid) = none →
      (update_class db cid cd u now).1 = Except.error (ApiError.notFound "Class not found")) ∧
    (∀ cid, db.classes.find? (fun c => c.id == cid) = none →
      (delete_class db cid u).1 = Except.error (ApiError.notFound "Class not found")) ∧
    (∀ sd fid now, db.classes.find? (fun c => c.id == sd.class_id) = none →
      (create_student db sd u fid now).1 = Except.error (ApiError.notFound "Class not found")) ∧
    (∀ sid sd now, db.students.find? (fun s => s.id == sid) = none →
      (update_student db sid sd u now).1 = Except.error (ApiError.notFound "Student not found")) ∧
    (∀ sid, db.students.find? (fun s => s.id == sid) = none →
      (delete_student db sid u).1 = Except.error (ApiError.notFound "Student not found")) ∧
    (∀ ad f now, db.classes.find? (fun c => c.id == ad.class_id) = none →
      (mark_bulk_attendance db ad u f now).1 = Except.error (ApiError.notFound "Class not found")) ∧
    (∀ cid cd now ec, db.classes.find? (fun c => c.id == cid) = some ec →
      u.role ≠ "admin" → ec.teacher_id ≠ u.id →
      (update_class db cid cd u now).1 =
        Except.error (ApiError.forbidden "Not authorized to update this class")) ∧
    (∀ cid ec, db.classes.find? (fun c => c.id == cid) = some ec →
      u.role ≠ "admin" → ec.teacher_id ≠ u.id →
      (delete_class db cid u).1 =
        Except.error (ApiError.forbidden "Not authorized to delete this class")) ∧
    (∀ sd fid now cdoc, db.classes.find? (fun c => c.id == sd.class_id) = some cdoc →
      u.role ≠ "admin" → cdoc.teacher_id ≠ u.id →
      (create_student db sd u fid now).1 =
        Except.error (ApiError.forbidden "Not authorized to add student to this class")) ∧
    (∀ sid sd now s cdoc, db.students.find? (fun t => t.id == sid) = some s →
      db.classes.find? (fun c => c.id == sd.class_id) = some cdoc →
      u.role ≠ "admin" → cdoc.teacher_id ≠ u.id →
      (update_student db sid sd u now).1 =
        Except.error (ApiError.forbidden "Not authorized to update this student")) ∧
    (∀ sid s cdoc, db.students.find? (fun t => t.id == sid) = some s →
      db.classes.find? (fun c => c.id == s.class_id) = some cdoc →
      u.role ≠ "admin" → cdoc.teacher_id ≠ u.id →
      (delete_student db sid u).1 =
        Except.error (ApiError.forbidden "Not authorized to delete this student")) ∧
    (∀ ad f now cdoc, db.classes.find? (fun c => c.id == ad.class_id) = some cdoc →
      u.role ≠ "admin" → cdoc.teacher_id ≠ u.id →
      (mark_bulk_attendance db ad u f now).1 =
        Except.error (ApiError.forbidden "Not authorized to mark attendance for this class")) := by
  refine ⟨?_, ?_, ?_, ?_, ?_, ?_, ?_, ?_, ?_, ?_, ?_, ?_⟩
  · intro cid cd now hnone
    unfold update_class
    rw [hnone]
  · intro cid hnone
    unfold delete_class
    rw [hnone]
  · intro sd fid now hnone
    unfold create_student
    rw [hnone]
  · intro sid sd now hnone
    unfold update_student
    rw [hnone]
  · intro sid hnone
    unfold delete_student
    rw [hnone]
  · intro ad f now hnone
    unfold mark_bulk_attendance
    rw [hnone]
  · intro cid cd now ec hfind hadm hown
    unfold update_class
    rw [hfind]
    simp [hadm, hown, bne]
  · intro cid ec hfind hadm hown
    unfold delete_class
    rw [hfind]
    simp [hadm, hown, bne]
  · intro sd fid now cdoc hfind hadm hown
    unfold create_student
    rw [hfind]
    simp [hadm, hown, bne]
  · intro sid sd now s cdoc hs hc hadm hown
    unfold update_student
    rw [hs, hc]
    simp [hadm, hown, bne]
  · intro sid s cdoc hs hc hadm hown
    unfold delete_student
    rw [hs]
    simp only
    rw [hc]
    simp [hadm, hown, bne]
  · intro ad f now cdoc hfind hadm hown
    unfold mark_bulk_attendance
    rw [hfind]
    simp [hadm, hown, bne]

/-- A student payload naming a nonexistent class. -/
def sdN : StudentCreate := { name := "Nix", email := "n@x", class_id := "NOPE", roll_number := "9" }

/-- A bulk-attendance payload naming a nonexistent class. -/
def adN : AttendanceBulkCreate := { class_id := "NOPE", date := 738895, attendance_records := [] }

/-- Witness for C4: on `db0`, probing the missing ids `"NOPE"` yields
`NotFound` both for a non-admin and for an admin, and the non-owning
teacher `uT2` mutating the existing class `C1` yields `Forbidden`. -/
theorem C4_existence_before_permission_witness :
    ((update_class db0 "NOPE" cd0 uT2 5).1 =
      Except.error (ApiError.notFound "Class not found")) ∧
    ((update_class db0 "NOPE" cd0 uAdmin 5).1 =
      Except.error (ApiError.notFound "Class not found")) ∧
    ((delete_class db0 "NOPE" uT2).1 =
      Except.error (ApiError.notFound "Class not found")) ∧
    ((create_student db0 sdN uT2 "F7" 5).1 =
      Except.error (ApiError.notFound "Class not found")) ∧
    ((update_student db0 "SNOPE" sd0 uT2 5).1 =
      Except.error (ApiError.notFound "Student not found")) ∧
    ((delete_student db0 "SNOPE" uT2).1 =
      Except.error (ApiError.notFound "Student not found")) ∧
    ((mark_bulk_attendance db0 adN uT2 fresh0 5).1 =
      Except.error (ApiError.notFound "Class not found")) ∧
    ((update_class db0 "C1" cd0 uT2 5).1 =
      Except.error (ApiError.forbidden "Not authorized to update this class")) ∧
    ((delete_student db0 "S1" uT2).1 =
      Except.error (ApiError.forbidden "Not authorized to delete this student")) := by
  refine ⟨(C4_existence_before_permission db0 uT2).1 "NOPE" cd0 5 (by rfl),
    (C4_existence_before_permission db0 uAdmin).1 "NOPE" cd0 5 (by rfl),
    (C4_existence_before_permission db0 uT2).2.1 "NOPE" (by rfl),
    (C4_existence_before_permission db0 uT2).2.2.1 sdN "F7" 5 (by rfl),
    (C4_existence_before_permission db0 uT2).2.2.2.1 "SNOPE" sd0 5 (by rfl),
    (C4_existence_before_permission db0 uT2).2.2.2.2.1 "SNOPE" (by rfl),
    (C4_existence_before_permission db0 uT2).2.2.2.2.2.1 adN fresh0 5 (by rfl),
    (C4_existence_before_permission db0 uT2).2.2.2.2.2.2.1 "C1" cd0 5 klass1 (by rfl)
      (by decide) (by decide),
    (C4_existence_before_permission db0 uT2).2.2.2.2.2.2.2.2.2.2.1 "S1" stud1 klass1
      (by rfl) (by rfl) (by decide) (by decide)⟩

/-- **C5.** On student update, once the existing student is found, the
permission for a non-admin actor is evaluated against the `teacher_id`
of the class named by the NEW `class_id` in the payload — not against
the student's current class: any actor owning the destination class
succeeds (rewriting the student's `class_id`), while a non-admin not
owning the destination is forbidden, in both cases regardless of who
owns the student's current class. -/
theorem C5_update_student_checks_new_class (db : DB) (sid : String)
    (sd : StudentCreate) (u : UserResponse) (now : Nat) (s : Student) (c : Klass)
    (hs : db.students.find? (fun t => t.id == sid) = some s)
    (hc : db.classes.find? (fun k => k.id == sd.class_id) = some c) :
    (c.teacher_id = u.id →
      (update_student db sid sd u now).1 = Except.ok
        { id := sid, name := sd.name, email := sd.email, class_id := sd.class_id,
          roll_number := sd.roll_number, created_at := now }) ∧
    (u.role ≠ "admin" → c.teacher_id ≠ u.id →
      (update_student db sid sd u now).1 =
        Except.error (ApiError.forbidden "Not authorized to update this student")) := by
  constructor
  · intro hown
    unfold update_student
    rw [hs, hc]
    by_cases hadm : u.role = "admin"
    · simp [hadm, bne]
    · simp [hadm, hown, bne]
  · intro hadm hown
    unfold update_student
    rw [hs, hc]
    simp [hadm, hown, bne]

/-- A second concrete class, owned by teacher `T2`. -/
def klass2 : Klass :=
  { id := "C2", name := "Chem", subject := "Gas", teacher_id := "T2", created_at := 0 }

/-- A store where `stud1` sits in `T1`'s class while `T2` owns `klass2`. -/
def db1 : DB := { users := [], classes := [klass1, klass2], students := [stud1], attendance := [] }

/-- A student payload moving the student into `T2`'s class `C2`. -/
def sd2 : StudentCreate := { name := "Sam", email := "s@x", class_id := "C2", roll_number := "1" }

/-- Witness for C5: teacher `T2`, who does not own student `S1`'s
current class, successfully claims `S1` by rewriting `class_id` to the
class `C2` that `T2` owns; updating towards `T1`'s class `C1` instead is
forbidden for `T2`. -/
theorem C5_update_student_checks_new_class_witness :
    ((update_student db1 "S1" sd2 uT2 5).1 = Except.ok
      { id := "S1", name := "Sam", email := "s@x", class_id := "C2",
        roll_number := "1", created_at := 5 }) ∧
    ((update_student db1 "S1" sd0 uT2 5).1 =
      Except.error (ApiError.forbidden "Not authorized to update this student")) :=
  ⟨(C5_update_student_checks_new_class db1 "S1" sd2 uT2 5 stud1 klass2
      (by rfl) (by rfl)).1 (by rfl),
   (C5_update_student_checks_new_class db1 "S1" sd0 uT2 5 stud1 klass1
      (by rfl) (by rfl)).2 (by decide) (by decide)⟩

/-- **C6.** When the policy check passes, the csv header row is
`["Student Name", "Roll Number"]` followed by one ISO-8601 `YYYY-MM-DD`
column per day of the inclusive `startDate..endDate` range: it has
`2 + (endDate - startDate + 1)` columns when `startDate ≤ endDate` and
exactly 2 columns when `startDate > endDate`. -/
theorem C6_csv_header_columns (db : DB) (cid : String) (sdt edt : Nat)
    (u : UserResponse) (cdoc : Klass)
    (hfind : db.classes.find? (fun c => c.id == cid) = some cdoc)
    (hperm : canMutate u cdoc.teacher_id = true) :
    ∃ header tail, download_attendance_csv db cid sdt edt u = Except.ok (header :: tail) ∧
      header = ["Student Name", "Roll Number"] ++
        (List.range (edt + 1 - sdt)).map (fun i => isoOfOrdinal (sdt + i)) ∧
      (sdt ≤ edt → header.length = 2 + (edt - sdt + 1)) ∧
      (edt < sdt → header.length = 2) := by
  unfold download_attendance_csv
  rw [hfind]
  simp only
  rw [guard_eq_not_canMutate, hperm]
  simp only [Bool.not_true, Bool.false_eq_true, if_false]
  refine ⟨"Student Name" :: "Roll Number" :: dateRangeFrom sdt edt, _, rfl, ?_, ?_, ?_⟩
  · rw [dateRangeFrom_eq]
    rfl
  · intro hle
    rw [dateRangeFrom_eq]
    simp only [List.length_cons, List.length_map, List.length_range]
    omega
  · intro hlt
    rw [dateRangeFrom_eq]
    simp only [List.length_cons, List.length_map, List.length_range]
    omega

/-- Witness for C6: the report on `db0` for class `C1` over the three
days 2024-01-10 .. 2024-01-12, requested by the owning teacher. -/
theorem C6_csv_header_columns_witness :
    ∃ header tail,
      download_attendance_csv db0 "C1" 738895 738897 uT1 = Except.ok (header :: tail) ∧
      header = ["Student Name", "Roll Number"] ++
        (List.range (738897 + 1 - 738895)).map (fun i => isoOfOrdinal (738895 + i)) ∧
      (738895 ≤ 738897 → header.length = 2 + (738897 - 738895 + 1)) ∧
      (738897 < 738895 → header.length = 2) :=
  C6_csv_header_columns db0 "C1" 738895 738897 uT1 klass1 (by rfl) (by rfl)

/-- **C7.** Registration fails with the 400 `"Email already registered"`
error, leaving the user store unchanged, if and only if a user with that
email already exists; otherwise it inserts the new user and returns it.
Hence registering two users with the same email, in either order, yields
exactly one success and one validation error. -/
theorem C7_register_duplicate_email (db : DB) :
    (∀ ud fid hshd now,
      ((register_user db ud fid hshd now).1 =
          Except.error (ApiError.badRequest "Email already registered") ∧
        (register_user db ud fid hshd now).2 = db) ↔
       ∃ w ∈ db.users, w.email = ud.email) ∧
    (∀ ud1 ud2 fid1 h1 n1 fid2 h2 n2, ud1.email = ud2.email →
      (∀ w ∈ db.users, w.email ≠ ud1.email) →
      ∃ nu, (register_user db ud1 fid1 h1 n1).1 = Except.ok nu ∧
        (register_user db ud1 fid1 h1 n1).2.users = db.users ++ [nu] ∧
        nu.email = ud1.email ∧
        (register_user (register_user db ud1 fid1 h1 n1).2 ud2 fid2 h2 n2).1 =
          Except.error (ApiError.badRequest "Email already registered") ∧
        (register_user (register_user db ud1 fid1 h1 n1).2 ud2 fid2 h2 n2).2 =
          (register_user db ud1 fid1 h1 n1).2) := by
  constructor
  · intro ud fid hshd now
    constructor
    · rintro ⟨herr, -⟩
      rcases hfind : db.users.find? (fun w => w.email == ud.email) with _ | w
      · unfold register_user at herr
        rw [hfind] at herr
        simp at herr
      · refine ⟨w, List.mem_of_find?_eq_some hfind, ?_⟩
        have := List.find?_some hfind
        simpa using this
    · rintro ⟨w, hw, he⟩
      have hsome : (db.users.find? (fun x => x.email == ud.email)).isSome := by
        rw [List.find?_isSome]
        exact ⟨w, hw, by simp [he]⟩
      rcases hfind : db.users.find? (fun x => x.email == ud.email) with _ | w2
      · rw [hfind] at hsome
        simp at hsome
      · unfold register_user
        rw [hfind]
        exact ⟨rfl, rfl⟩
  · intro ud1 ud2 fid1 h1 n1 fid2 h2 n2 hemail hfresh
    have hnone : db.users.find? (fun x => x.email == ud1.email) = none := by
      rw [List.find?_eq_none]
      intro x hx
      simp [hfresh x hx]
    unfold register_user
    rw [hnone]
    simp only
    have hn2 : db.users.find? (fun x => x.email == ud2.email) = none := by
      rw [List.find?_eq_none]
      intro x hx
      have hx2 : x.email ≠ ud2.email := by
        rw [← hemail]
        exact hfresh x hx
      simp [hx2]
    refine ⟨_, rfl, rfl, rfl, ?_, ?_⟩ <;>
      · rw [List.find?_append, hn2, List.find?_cons_of_pos [] (by simp [hemail])]
        rfl

/-- A concrete registration payload. -/
def ud1 : UserCreate := { username := "nina", email := "n@y", password := "pw", role := "teacher" }

/-- A second registration payload sharing `ud1`'s email. -/
def ud2 : UserCreate := { username := "nico", email := "n@y", password := "pw2", role := "teacher" }

/-- Witness for C7: registering `n@y` twice on `db0` (whose user store
is empty) — one success, then the duplicate-email error. -/
theorem C7_register_duplicate_email_witness :
    ∃ nu, (register_user db0 ud1 "U1" "H1" 3).1 = Except.ok nu ∧
      (register_user db0 ud1 "U1" "H1" 3).2.users = db0.users ++ [nu] ∧
      nu.email = ud1.email ∧
      (register_user (register_user db0 ud1 "U1" "H1" 3).2 ud2 "U2" "H2" 4).1 =
        Except.error (ApiError.badRequest "Email already registered") ∧
      (register_user (register_user db0 ud1 "U1" "H1" 3).2 ud2 "U2" "H2" 4).2 =
        (register_user db0 ud1 "U1" "H1" 3).2 :=
  (C7_register_duplicate_email db0).2 ud1 ud2 "U1" "H1" 3 "U2" "H2" 4 (by rfl)
    (by intro w hw; simp [db0] at hw)

/-- **C8.** Read-path filtering is asymmetric: listing classes returns
all classes for an admin and only the classes with `teacher_id` equal to
the actor's id for a teacher, whereas listing students applies no
role-based filtering at all — the result is the same for every actor and
equals all students matching the optional `class_id` filter. -/
theorem C8_read_path_asymmetry (db : DB) :
    (∀ u : UserResponse, u.role = "admin" ∨ u.role = "teacher" →
      get_classes db u = (if u.role = "admin" then db.classes
        else db.classes.filter (fun c => c.teacher_id == u.id))) ∧
    (∀ (u1 u2 : UserResponse) (cid : Option String),
      get_students db cid u1 = get_students db cid u2) ∧
    (∀ (u : UserResponse) (cid : String), cid ≠ "" →
      get_students db (some cid) u = db.students.filter (fun s => s.class_id == cid)) ∧
    (∀ u : UserResponse, get_students db none u = db.students) := by
  refine ⟨?_, ?_, ?_, ?_⟩
  · rintro u (hrole | hrole)
    · simp [get_classes, hrole]
    · simp [get_classes, hrole]
  · intro u1 u2 cid
    rfl
  · intro u cid hcid
    simp [get_students, hcid]
  · intro u
    rfl

/-- Witness for C8: on `db0`, the admin sees every class, teacher `T2`
sees none, while both teachers see the same full student list. -/
theorem C8_read_path_asymmetry_witness :
    (get_classes db0 uAdmin = (if uAdmin.role = "admin" then db0.classes
      else db0.classes.filter (fun c => c.teacher_id == uAdmin.id))) ∧
    (get_classes db0 uT2 = (if uT2.role = "admin" then db0.classes
      else db0.classes.filter (fun c => c.teacher_id == uT2.id))) ∧
    (get_students db0 (some "C1") uT1 = get_students db0 (some "C1") uT2) ∧
    (get_students db0 (some "C1") uT2 = db0.students.filter (fun s => s.class_id == "C1")) ∧
    (get_students db0 none uT2 = db0.students) :=
  ⟨(C8_read_path_asymmetry db0).1 uAdmin (Or.inl rfl),
   (C8_read_path_asymmetry db0).1 uT2 (Or.inr rfl),
   (C8_read_path_asymmetry db0).2.1 uT1 uT2 (some "C1"),
   (C8_read_path_asymmetry db0).2.2.1 uT2 "C1" (by decide),
   (C8_read_path_asymmetry db0).2.2.2 uT2⟩

/-- **C9.** In student update the lookup of the class named by the
payload's new `class_id` has no existence guard: a non-admin updating an
existing student towards a `class_id` matching no stored class makes the
permission check subscript the missing class document — the operation
fails with the unhandled none-dereference, returning neither `NotFound`
nor `Forbidden`, and writes nothing. -/
theorem C9_update_student_missing_class_crash (db : DB) (sid : String)
    (sd : StudentCreate) (u : UserResponse) (now : Nat) (s : Student)
    (hs : db.students.find? (fun t => t.id == sid) = some s)
    (hc : db.classes.find? (fun k => k.id == sd.class_id) = none)
    (hadm : u.role ≠ "admin") :
    (update_student db sid sd u now).1 = Except.error ApiError.noneTypeError ∧
    (update_student db sid sd u now).2 = db ∧
    (∀ d, (update_student db sid sd u now).1 ≠ Except.error (ApiError.notFound d)) ∧
    (∀ d, (update_student db sid sd u now).1 ≠ Except.error (ApiError.forbidden d)) := by
  have hmain : update_student db sid sd u now = (Except.error ApiError.noneTypeError, db) := by
    unfold update_student
    rw [hs, hc]
    simp [hadm, bne]
  rw [hmain]
  refine ⟨rfl, rfl, ?_, ?_⟩ <;> intro d <;> simp

/-- Witness for C9: teacher `T2` updating existing student `S1` towards
the nonexistent class id `"NOPE"` hits the none-dereference. -/
theorem C9_update_student_missing_class_crash_witness :
    (update_student db0 "S1" sdN uT2 5).1 = Except.error ApiError.noneTypeError ∧
    (update_student db0 "S1" sdN uT2 5).2 = db0 ∧
    (∀ d, (update_student db0 "S1" sdN uT2 5).1 ≠ Except.error (ApiError.notFound d)) ∧
    (∀ d, (update_student db0 "S1" sdN uT2 5).1 ≠ Except.error (ApiError.forbidden d)) :=
  C9_update_student_missing_class_crash db0 "S1" sdN uT2 5 stud1 (by rfl) (by rfl) (by decide)

/-- **C10.** Successful class update and student update replace the
whole stored document with one rebuilt from the request payload, copying
only the id from the path parameter; in particular the stored
`created_at` is regenerated to the update time `now`, not preserved from
the existing document. -/
theorem C10_update_rebuilds_document (db : DB) (u : UserResponse) (now : Nat) :
    (∀ cid cd ec, db.classes.find? (fun c => c.id == cid) = some ec →
      canMutate u ec.teacher_id = true →
      (update_class db cid cd u now).1 = Except.ok
        { id := cid, name := cd.name, subject := cd.subject,
          teacher_id := cd.teacher_id, created_at := now } ∧
      (update_class db cid cd u now).2.classes.find? (fun c => c.id == cid) = some
        { id := cid, name := cd.name, subject := cd.subject,
          teacher_id := cd.teacher_id, created_at := now }) ∧
    (∀ sid sd s cdoc, db.students.find? (fun t => t.id == sid) = some s →
      db.classes.find? (fun k => k.id == sd.class_id) = some cdoc →
      canMutate u cdoc.teacher_id = true →
      (update_student db sid sd u now).1 = Except.ok
        { id := sid, name := sd.name, email := sd.email, class_id := sd.class_id,
          roll_number := sd.roll_number, created_at := now } ∧
      (update_student db sid sd u now).2.students.find? (fun t => t.id == sid) = some
        { id := sid, name := sd.name, email := sd.email, class_id := sd.class_id,
          roll_number := sd.roll_number, created_at := now }) := by
  constructor
  · intro cid cd ec hfind hperm
    have h1 : (update_class db cid cd u now).1 = Except.ok
        { id := cid, name := cd.name, subject := cd.subject,
          teacher_id := cd.teacher_id, created_at := now } := by
      unfold update_class
      rw [hfind]
      simp only
      rw [guard_eq_not_canMutate, hperm]
      simp
    have h2 : (update_class db cid cd u now).2.classes =
        updateFirst (fun c => c.id == cid)
          { id := cid, name := cd.name, subject := cd.subject,
            teacher_id := cd.teacher_id, created_at := now } db.classes := by
      unfold update_class
      rw [hfind]
      simp only
      rw [guard_eq_not_canMutate, hperm]
      simp
    refine ⟨h1, ?_⟩
    rw [h2]
    exact find?_updateFirst _ _ db.classes ec hfind (by simp)
  · intro sid sd s cdoc hs hc hperm
    have hown : u.role = "admin" ∨ cdoc.teacher_id = u.id := by
      have hp := hperm
      simp only [canMutate, Bool.or_eq_true, beq_iff_eq] at hp
      rcases hp with h | h
      · exact Or.inl h
      · exact Or.inr h.symm
    have h1 : (update_student db sid sd u now).1 = Except.ok
        { id := sid, name := sd.name, email := sd.email, class_id := sd.class_id,
          roll_number := sd.roll_number, created_at := now } := by
      unfold update_student
      rw [hs, hc]
      simp only
      by_cases hadm : u.role = "admin"
      · simp [hadm, bne]
      · rcases hown with h | h
        · exact absurd h hadm
        · simp [hadm, h, bne]
    have h2 : (update_student db sid sd u now).2.students =
        updateFirst (fun t => t.id == sid)
          { id := sid, name := sd.name, email := sd.email, class_id := sd.class_id,
            roll_number := sd.roll_number, created_at := now } db.students := by
      unfold update_student
      rw [hs, hc]
      simp only
      by_cases hadm : u.role = "admin"
      · simp [hadm, bne]
      · rcases hown with h | h
        · exact absurd h hadm
        · simp [hadm, h, bne]
    refine ⟨h1, ?_⟩
    rw [h2]
    exact find?_updateFirst _ _ db.students s hs (by simp)

/-- Witness for C10: the admin updates class `C1` of `db0` at time 42 —
the stored document's `created_at` becomes 42, not `klass1`'s 0 — and
teacher `T1` updates student `S1` at time 43 with the same effect. -/
theorem C10_update_rebuilds_document_witness :
    ((update_class db0 "C1" cd0 uAdmin 42).1 = Except.ok
      { id := "C1", name := cd0.name, subject := cd0.subject,
        teacher_id := cd0.teacher_id, created_at := 42 } ∧
     (update_class db0 "C1" cd0 uAdmin 42).2.classes.find? (fun c => c.id == "C1") = some
      { id := "C1", name := cd0.name, subject := cd0.subject,
        teacher_id := cd0.teacher_id, created_at := 42 }) ∧
    ((update_student db0 "S1" sd0 uT1 43).1 = Except.ok
      { id := "S1", name := sd0.name, email := sd0.email, class_id := sd0.class_id,
        roll_number := sd0.roll_number, created_at := 43 } ∧
     (update_student db0 "S1" sd0 uT1 43).2.students.find? (fun t => t.id == "S1") = some
      { id := "S1", name := sd0.name, email := sd0.email, class_id := sd0.class_id,
        roll_number := sd0.roll_number, created_at := 43 }) :=
  ⟨(C10_update_rebuilds_document db0 uAdmin 42).1 "C1" cd0 klass1 (by rfl) (by rfl),
   (C10_update_rebuilds_document db0 uT1 43).2 "S1" sd0 stud1 klass1 (by rfl) (by rfl) (by rfl)⟩

end SAS
